import Mathlib

/-!
Shallow embedding of `kl_tools/velocity.py`: the velocity-model parameter
validation (`VelocityModel.__init__` / `_check_model_pars`), the model registry
(`MODEL_TYPES` / `build_model`), and the velocity-map evaluation
(`VelocityMap.__call__`, `_eval_map_in_plane`, `_eval_in_disk_plane`,
`_eval_in_gal_plane`).

Python floats are modelled as real numbers; numpy coordinate arrays as lists of
reals evaluated elementwise; Python dicts as insertion-ordered association
lists.  Python objects that can appear as parameter values (numbers, astropy
unit objects, `None`, strings) are the inductive `PyVal`; Python objects passed
for the boolean keyword flags are `PFlag`, so that the source's identity tests
(`x is True`, `x is False`) are modelled faithfully: they hold only for the
actual booleans, not for truthy or falsy numbers.

Code of the repository that lives in modules absent from the sources at hand
(`transformation.py`, `numba_transformation.py`, `parameters.py`) is modelled
from the spec; each such definition carries a doc comment saying so.
-/

/-- Kinds of astropy unit objects the validator accepts: `units.Unit`,
`units.CompositeUnit`, `units.IrreducibleUnit`. -/
inductive UnitKind where
  | unit
  | composite
  | irreducible
deriving DecidableEq

/-- Python values that can appear as entries of the `model_pars` dict: a float,
an astropy unit object (carrying, as its interface to the units collaborator,
the value of the speed of light expressed in that unit, i.e.
`const.c.to(u).value`), Python `None`, or some other object (modelled by a
string, enough to exercise the unit-type check). -/
inductive PyVal where
  | num (x : ℝ)
  | unit (k : UnitKind) (cval : ℝ)
  | none
  | str (s : String)

/-- Python objects passed as the `speed` / `normalized` keyword flags: an
actual `bool` or an `int`.  The source tests these with `is True` / `is False`,
which hold only for the bool objects. -/
inductive PFlag where
  | pybool (b : Bool)
  | pyint (n : Int)
deriving DecidableEq

/-- Python `x is False`: true only for the bool object `False`. -/
def isFalseId : PFlag → Bool
  | .pybool false => true
  | _ => false

/-- Python `x is True`: true only for the bool object `True`. -/
def isTrueId : PFlag → Bool
  | .pybool true => true
  | _ => false

/-- Python exceptions raised by the code under study, plus the
shape-mismatch error mandated by the spec for the (absent) superclass
validation. -/
inductive PyErr where
  | typeError (msg : String)
  | attributeError (msg : String)
  | valueError (msg : String)
  | nameError
  | shapeMismatch
deriving DecidableEq

/-- A Python dict as an insertion-ordered association list (Python dicts
iterate in insertion order). -/
abbrev Pars := List (String × PyVal)

/-- The argument passed to `VelocityModel.__init__`: either a dict or some
other object (whose type name feeds the `TypeError` message). -/
inductive PyObj where
  | dict (pars : Pars)
  | nonDict (tyName : String)

/-- `VelocityModel._model_params`: the nine recognized parameter names, in the
source's order. -/
def modelParams : List String :=
  ["v0", "vcirc", "rscale", "sini", "theta_int", "g1", "g2", "r_unit", "v_unit"]

/-- Does a `PyVal` model Python `None`? -/
def isNoneV : PyVal → Bool
  | .none => true
  | _ => false

/-- Is a `PyVal` an astropy unit object (any of the three accepted classes)? -/
def isUnitVal : PyVal → Bool
  | .unit _ _ => true
  | _ => false

/-- Dict lookup `pars[k]` (first binding; Python dicts have unique keys).  The
source only looks up keys whose presence was already validated, so the default
branch is never reached on validated parameter sets. -/
def getPar (pars : Pars) (k : String) : PyVal :=
  ((pars.find? (fun p => p.1 == k)).map Prod.snd).getD (.str "")

/-- Numeric value of a parameter (the source does arithmetic directly on the
looked-up entry; on validated inputs the numeric parameters are numbers). -/
def getNum (pars : Pars) (k : String) : ℝ :=
  match getPar pars k with
  | .num x => x
  | _ => 0

/-- The units collaborator's `const.c.to(u).value`: speed of light in unit `u`. -/
def cIn : PyVal → ℝ
  | .unit _ cval => cval
  | _ => 0

/-- First validation loop of `_check_model_pars`: for each `(name, val)` of the
dict in iteration order, the `val is None` branch is checked first — and its
`f'{param} must be set!'` message references the undefined name `param`, so
reaching it raises `NameError` — then the unknown-name check raises
`AttributeError`. -/
def checkEntries : Pars → Except PyErr Unit
  | [] => .ok ()
  | (name, val) :: rest =>
    if isNoneV val then .error .nameError
    else if !(modelParams.contains name) then
      .error (.attributeError (name ++ " is not a valid model parameter for centered velocity model!"))
    else checkEntries rest

/-- Second loop of `_check_model_pars`: every required name must be present. -/
def checkRequired (pars : Pars) : Except PyErr Unit :=
  match modelParams.find? (fun par => !(pars.any (fun p => p.1 == par))) with
  | some par => .error (.attributeError (par ++ " must be in passed parameters to instantiate centered velocity model!"))
  | Option.none => .ok ()

/-- Third check of `_check_model_pars`: `r_unit` and `v_unit` must be astropy
unit objects. -/
def checkUnits (pars : Pars) : Except PyErr Unit :=
  if !(isUnitVal (getPar pars "r_unit")) then
    .error (.typeError "unit params must be an astropy unit class!")
  else if !(isUnitVal (getPar pars "v_unit")) then
    .error (.typeError "unit params must be an astropy unit class!")
  else .ok ()

/-- `VelocityModel._check_model_pars`, sequencing the three checks. -/
def checkModelPars (pars : Pars) : Except PyErr Unit :=
  match checkEntries pars with
  | .error e => .error e
  | .ok _ =>
    match checkRequired pars with
    | .error e => .error e
    | .ok _ => checkUnits pars

/-- Modelled from the spec: `pars2theta` (in `parameters.py`, absent from the
sources at hand) flattens the parameter mapping into an ordered numeric array
with a fixed documented layout; we take
`[v0, vcirc, rscale, sini, theta_int, g1, g2]`. -/
def pars2theta (pars : Pars) : List ℝ :=
  [getNum pars "v0", getNum pars "vcirc", getNum pars "rscale",
   getNum pars "sini", getNum pars "theta_int",
   getNum pars "g1", getNum pars "g2"]

/-- A constructed `VelocityModel`: the validated dict plus the flattened array
built once at construction (`_build_pars_array`). -/
structure VModel where
  pars : Pars
  pars_arr : List ℝ

/-- `VelocityModel.__init__`: reject non-dict input with `TypeError`, run
`_check_model_pars`, then build the flattened parameter array. -/
def velocityModelInit : PyObj → Except PyErr VModel
  | .nonDict t => .error (.typeError ("model_pars must be a dict, not a " ++ t ++ "!"))
  | .dict pars =>
    match checkModelPars pars with
    | .error e => .error e
    | .ok _ => .ok ⟨pars, pars2theta pars⟩

/-- Keys of the `MODEL_TYPES` registry; both entries map to the
`VelocityModel` constructor. -/
def MODEL_TYPES : List String := ["default", "centered"]

/-- Python `str.lower()`, mapping each character to lower case (the registered
names are ASCII, where `Char.toLower` agrees with Python). -/
def pyLower (s : String) : String := ⟨s.data.map Char.toLower⟩

/-- `build_model`: lowercase the name, look it up in the registry, and
delegate to the (sole) registered constructor; unregistered names raise
`ValueError`. -/
def buildModel (name : String) (pars : PyObj) : Except PyErr VModel :=
  let lname := pyLower name
  if MODEL_TYPES.contains lname then velocityModelInit pars
  else .error (.valueError (lname ++ " is not a registered velocity model!"))

/-- The four coordinate planes of a `VelocityMap`. -/
inductive Plane where
  | disk
  | gal
  | source
  | obs
deriving DecidableEq

/-- Radial rotation profile of `_eval_in_disk_plane` (the `speed` branch):
`v_r = v0 + (2/pi) * vcirc * arctan(r / rscale)`. -/
noncomputable def vR (v0 vcirc rscale r : ℝ) : ℝ :=
  v0 + (2 / Real.pi) * vcirc * Real.arctan (r / rscale)

/-- numpy `arctan2(y, x)`: the angle of the point `(x, y)`. -/
noncomputable def np_arctan2 (y x : ℝ) : ℝ :=
  Complex.arg ⟨x, y⟩

/-- `VelocityMap._eval_in_disk_plane` (dict backend), elementwise over the
coordinate arrays: if `speed is False` return `np.zeros(np.shape(x))`,
otherwise the radial profile at `r = sqrt(x^2 + y^2)`. -/
noncomputable def evalInDiskPlane (pars : Pars) (x y : List ℝ) (speed : PFlag) : List ℝ :=
  if isFalseId speed then List.replicate x.length 0
  else
    List.zipWith
      (fun a b =>
        vR (getNum pars "v0") (getNum pars "vcirc") (getNum pars "rscale")
          (Real.sqrt (a ^ 2 + b ^ 2)))
      x y

/-- Modelled from the spec: `transform._gal2disk` (in `transformation.py`,
absent from the sources at hand) inverts the disk→gal inclination compression
`(x, y) ↦ (x, y * sqrt(1 - sini^2))`, so `(x, y) ↦ (x, y / sqrt(1 - sini^2))`. -/
noncomputable def gal2disk (sini x y : ℝ) : ℝ × ℝ :=
  (x, y / Real.sqrt (1 - sini ^ 2))

/-- `VelocityMap._eval_in_gal_plane` (dict backend): transform the positions to
the disk plane, evaluate the speed map there, and — unless `speed is True` —
project it by `sini * cos(phi)` with `phi = arctan2(yp, xp)`. -/
noncomputable def evalInGalPlane (pars : Pars) (x y : List ℝ) (speed : PFlag) : List ℝ :=
  let sini := getNum pars "sini"
  let xp := List.zipWith (fun a b => (gal2disk sini a b).1) x y
  let yp := List.zipWith (fun a b => (gal2disk sini a b).2) x y
  let speedMap := evalInDiskPlane pars xp yp (.pybool true)
  if isTrueId speed then speedMap
  else
    List.zipWith (fun p s => sini * Real.cos (np_arctan2 p.2 p.1) * s)
      (xp.zip yp) speedMap

/-- Modelled from the spec: the source→gal transform (in `transformation.py`,
absent from the sources at hand) inverts the gal→source rotation by
`theta_int`, i.e. rotates by `-theta_int`. -/
noncomputable def source2gal (t x y : ℝ) : ℝ × ℝ :=
  (Real.cos t * x + Real.sin t * y, -Real.sin t * x + Real.cos t * y)

/-- Modelled from the spec: the obs→source transform (in `transformation.py`,
absent from the sources at hand) inverts the reduced-shear linear map
`[[1+g1, g2], [g2, 1-g1]]`. -/
noncomputable def obs2source (g1 g2 x y : ℝ) : ℝ × ℝ :=
  let det := 1 - g1 ^ 2 - g2 ^ 2
  (((1 - g1) * x - g2 * y) / det, (-g2 * x + (1 + g1) * y) / det)

/-- Modelled from the spec: the source-plane evaluator (in `transformation.py`,
absent from the sources at hand) transforms source-plane positions into the gal
plane and evaluates there (spec section 4.5, steps 2 and 5). -/
noncomputable def evalInSourcePlane (pars : Pars) (x y : List ℝ) (speed : PFlag) : List ℝ :=
  let t := getNum pars "theta_int"
  evalInGalPlane pars
    (List.zipWith (fun a b => (source2gal t a b).1) x y)
    (List.zipWith (fun a b => (source2gal t a b).2) x y) speed

/-- Modelled from the spec: the obs-plane evaluator (in `transformation.py`,
absent from the sources at hand) transforms obs-plane positions into the source
plane and evaluates there. -/
noncomputable def evalInObsPlane (pars : Pars) (x y : List ℝ) (speed : PFlag) : List ℝ :=
  let g1 := getNum pars "g1"
  let g2 := getNum pars "g2"
  evalInSourcePlane pars
    (List.zipWith (fun a b => (obs2source g1 g2 a b).1) x y)
    (List.zipWith (fun a b => (obs2source g1 g2 a b).2) x y) speed

/-- Modelled from the spec: the numba disk-plane evaluator (in
`numba_transformation.py`, absent from the sources at hand) reads the
parameters by fixed positional index from the flattened array
(`0 ↦ v0`, `1 ↦ vcirc`, `2 ↦ rscale`) and computes the same radial profile as
the dict backend. -/
noncomputable def nbEvalInDiskPlane (th : List ℝ) (x y : List ℝ) (speed : PFlag) : List ℝ :=
  if isFalseId speed then List.replicate x.length 0
  else
    List.zipWith
      (fun a b =>
        th.getD 0 0 +
          (2 / Real.pi) * th.getD 1 0 *
            Real.arctan (Real.sqrt (a ^ 2 + b ^ 2) / th.getD 2 0))
      x y

/-- Modelled from the spec: the numba gal-plane evaluator, reading `sini` at
index 3 of the flattened array and otherwise mirroring the dict backend. -/
noncomputable def nbEvalInGalPlane (th : List ℝ) (x y : List ℝ) (speed : PFlag) : List ℝ :=
  let sini := th.getD 3 0
  let xp := List.zipWith (fun a b => (gal2disk sini a b).1) x y
  let yp := List.zipWith (fun a b => (gal2disk sini a b).2) x y
  let speedMap := nbEvalInDiskPlane th xp yp (.pybool true)
  if isTrueId speed then speedMap
  else
    List.zipWith (fun p s => sini * Real.cos (np_arctan2 p.2 p.1) * s)
      (xp.zip yp) speedMap

/-- Modelled from the spec: the numba source-plane evaluator, reading
`theta_int` at index 4 of the flattened array. -/
noncomputable def nbEvalInSourcePlane (th : List ℝ) (x y : List ℝ) (speed : PFlag) : List ℝ :=
  let t := th.getD 4 0
  nbEvalInGalPlane th
    (List.zipWith (fun a b => (source2gal t a b).1) x y)
    (List.zipWith (fun a b => (source2gal t a b).2) x y) speed

/-- Modelled from the spec: the numba obs-plane evaluator, reading `g1` and
`g2` at indices 5 and 6 of the flattened array. -/
noncomputable def nbEvalInObsPlane (th : List ℝ) (x y : List ℝ) (speed : PFlag) : List ℝ :=
  let g1 := th.getD 5 0
  let g2 := th.getD 6 0
  nbEvalInSourcePlane th
    (List.zipWith (fun a b => (obs2source g1 g2 a b).1) x y)
    (List.zipWith (fun a b => (obs2source g1 g2 a b).2) x y) speed

/-- `VelocityMap._eval_map_in_plane`: pick the flattened array when
`use_numba is True`, the dict otherwise, and dispatch on the plane
(`_get_plane_eval_func`). -/
noncomputable def evalMapInPlane (model : VModel) (plane : Plane) (x y : List ℝ)
    (speed : PFlag) (useNumba : Bool) : List ℝ :=
  if useNumba then
    match plane with
    | .disk => nbEvalInDiskPlane model.pars_arr x y speed
    | .gal => nbEvalInGalPlane model.pars_arr x y speed
    | .source => nbEvalInSourcePlane model.pars_arr x y speed
    | .obs => nbEvalInObsPlane model.pars_arr x y speed
  else
    match plane with
    | .disk => evalInDiskPlane model.pars x y speed
    | .gal => evalInGalPlane model.pars x y speed
    | .source => evalInSourcePlane model.pars x y speed
    | .obs => evalInObsPlane model.pars x y speed

/-- Modelled from the spec: `TransformableImage.__call__` (in
`transformation.py`, absent from the sources at hand) validates the evaluation
inputs; per spec section 7, coordinate arrays of different shape raise
`ShapeMismatchError` before any output is produced. -/
def transformableImageCall (x y : List ℝ) : Except PyErr Unit :=
  if x.length = y.length then .ok () else .error .shapeMismatch

/-- `VelocityMap.__call__`: run the superclass validation, set
`norm = 1 / const.c.to(v_unit).value` when `normalized is True` (else `1`),
and return `norm * _eval_map_in_plane(...)`. -/
noncomputable def velocityMapCall (model : VModel) (plane : Plane) (x y : List ℝ)
    (speed normalized : PFlag) (useNumba : Bool) : Except PyErr (List ℝ) :=
  match transformableImageCall x y with
  | .error e => .error e
  | .ok _ =>
    let norm : ℝ :=
      if isTrueId normalized then 1 / cIn (getPar model.pars "v_unit") else 1
    .ok ((evalMapInPlane model plane x y speed useNumba).map (fun v => norm * v))

/-- The example parameter dict of the source's `main` test routine:
`v0=0, vcirc=200, rscale=3, sini=0.8, theta_int=pi/3, r_unit=pixel,
v_unit=km/s, g1=0.1, g2=0.05` (the unit entries carry the speed of light
expressed in them; only `v_unit`'s value, c in km/s, is ever read). -/
noncomputable def examplePars : Pars :=
  [("v0", .num 0), ("vcirc", .num 200), ("rscale", .num 3),
   ("sini", .num 0.8), ("theta_int", .num (Real.pi / 3)),
   ("r_unit", .unit .unit 0), ("v_unit", .unit .composite 299792.458),
   ("g1", .num 0.1), ("g2", .num 0.05)]

/-- The `VelocityModel` built from `examplePars`. -/
noncomputable def exampleModel : VModel :=
  ⟨examplePars, pars2theta examplePars⟩

/-- A parameter dict whose first entry has value `None` (the other entries are
the example values); used to exercise the null-value branch. -/
noncomputable def c5ParsNull : Pars :=
  [("v0", .none), ("vcirc", .num 200), ("rscale", .num 3),
   ("sini", .num 0.8), ("theta_int", .num 1),
   ("r_unit", .unit .unit 0), ("v_unit", .unit .composite 299792.458),
   ("g1", .num 0.1), ("g2", .num 0.05)]

/-- A parameter dict missing the required name `rscale`. -/
noncomputable def c5ParsMissing : Pars :=
  [("v0", .num 0), ("vcirc", .num 200),
   ("sini", .num 0.8), ("theta_int", .num 1),
   ("r_unit", .unit .unit 0), ("v_unit", .unit .composite 299792.458),
   ("g1", .num 0.1), ("g2", .num 0.05)]

/-- A parameter dict with the extra unrecognized key `foo`. -/
noncomputable def c5ParsFoo : Pars :=
  [("v0", .num 0), ("vcirc", .num 200), ("rscale", .num 3),
   ("sini", .num 0.8), ("theta_int", .num 1),
   ("r_unit", .unit .unit 0), ("v_unit", .unit .composite 299792.458),
   ("g1", .num 0.1), ("g2", .num 0.05), ("foo", .num 1)]

/-- A parameter dict whose `r_unit` is a string rather than a unit object. -/
noncomputable def c5ParsBadUnit : Pars :=
  [("v0", .num 0), ("vcirc", .num 200), ("rscale", .num 3),
   ("sini", .num 0.8), ("theta_int", .num 1),
   ("r_unit", .str "kpc"), ("v_unit", .unit .composite 299792.458),
   ("g1", .num 0.1), ("g2", .num 0.05)]

/-- A parameter dict that passes every validation check but has the negative
turnover radius `rscale = -1` and `vcirc = 1`. -/
noncomputable def c8BadPars : Pars :=
  [("v0", .num 0), ("vcirc", .num 1), ("rscale", .num (-1)),
   ("sini", .num 0), ("theta_int", .num 0),
   ("r_unit", .unit .unit 0), ("v_unit", .unit .composite 299792.458),
   ("g1", .num 0), ("g2", .num 0)]

/-- A parameter dict whose first entry has an unknown key (with a non-null
value) and whose second entry has value `None`. -/
noncomputable def c9BadPars : Pars :=
  [("foo", .num 2), ("v0", .none)]

/-- Helper: a dict containing a `None` value always fails the first validation
loop with some error. -/
theorem checkEntries_error_of_none (pars : Pars)
    (h : pars.any (fun p => isNoneV p.2) = true) :
    ∃ e, checkEntries pars = .error e := by
  induction pars with
  | nil => simp at h
  | cons hd tl ih =>
    obtain ⟨name, val⟩ := hd
    by_cases hn : isNoneV val
    · exact ⟨.nameError, by simp [checkEntries, hn]⟩
    · simp only [List.any_cons, Bool.or_eq_true] at h
      rcases h with h | h
      · exact absurd h hn
      · by_cases hk : name ∈ modelParams
        · obtain ⟨e, he⟩ := ih h
          exact ⟨e, by simp [checkEntries, hn, hk, he]⟩
        · exact ⟨.attributeError
              (name ++ " is not a valid model parameter for centered velocity model!"),
            by simp [checkEntries, hn, hk]⟩

/-- Helper: when every entry before the first null entry has a recognized key
(and is itself non-null), the first validation loop walks past those entries
and fails with exactly `NameError` at the null entry — whose own key is
unconstrained, since the null check runs before the unknown-key check. -/
theorem checkEntries_nameError_first_null (pre post : Pars) (k : String) (v : PyVal)
    (hnull : ∀ p ∈ pre, isNoneV p.2 = false)
    (hkey : ∀ p ∈ pre, p.1 ∈ modelParams)
    (hv : isNoneV v = true) :
    checkEntries (pre ++ (k, v) :: post) = .error .nameError := by
  induction pre with
  | nil => simp [checkEntries, hv]
  | cons hd tl ih =>
    obtain ⟨name, val⟩ := hd
    have hn : isNoneV val = false := hnull (name, val) (List.mem_cons_self _ _)
    have hname : name ∈ modelParams := hkey (name, val) (List.mem_cons_self _ _)
    have htl := ih (fun p hp => hnull p (List.mem_cons_of_mem _ hp))
      (fun p hp => hkey p (List.mem_cons_of_mem _ hp))
    simp [checkEntries, hn, hname, htl]

/-- Helper: an error of the first validation loop is the error of the whole
checker. -/
theorem checkModelPars_of_entries_error (pars : Pars) (e : PyErr)
    (he : checkEntries pars = .error e) : checkModelPars pars = .error e := by
  simp [checkModelPars, he]

/-- Helper: a checker error is the error of the whole construction. -/
theorem velocityModelInit_of_check_error (pars : Pars) (e : PyErr)
    (he : checkModelPars pars = .error e) :
    velocityModelInit (.dict pars) = .error e := by
  simp [velocityModelInit, he]

/-- C1: in the disk plane the speed evaluation computes, elementwise,
`v_r = v0 + (2/pi) * vcirc * arctan(sqrt(x^2 + y^2) / rscale)`; for the example
model (`v0=0, vcirc=200, rscale=3, sini=0.8, theta_int=pi/3, g1=0.1, g2=0.05`),
evaluating at the disk-plane point `(3, 0)` with `speed=True` returns exactly
`100` and with `speed=False` returns `0`. -/
theorem c1_disk_radial_profile :
    (∀ (pars : Pars) (x y : List ℝ),
      evalInDiskPlane pars x y (.pybool true)
        = List.zipWith
            (fun a b =>
              getNum pars "v0" +
                2 / Real.pi * getNum pars "vcirc" *
                  Real.arctan (Real.sqrt (a ^ 2 + b ^ 2) / getNum pars "rscale"))
            x y) ∧
    velocityMapCall exampleModel .disk [3] [0] (.pybool true) (.pybool false) false
      = .ok [100] ∧
    velocityMapCall exampleModel .disk [3] [0] (.pybool false) (.pybool false) false
      = .ok [0] := by
  refine ⟨fun pars x y => rfl, ?_, ?_⟩
  · have hv0 : getNum examplePars "v0" = 0 := rfl
    have hvc : getNum examplePars "vcirc" = 200 := rfl
    have hrs : getNum examplePars "rscale" = 3 := rfl
    simp only [velocityMapCall, transformableImageCall, evalMapInPlane, evalInDiskPlane,
      isFalseId, isTrueId, exampleModel, if_false, Bool.false_eq_true, ite_false,
      List.zipWith, List.map, hv0, hvc, hrs]
    norm_num
    rw [show Real.sqrt (9:ℝ) = 3 by
      rw [show (9:ℝ) = 3 ^ 2 by norm_num, Real.sqrt_sq (by norm_num : (0:ℝ) ≤ 3)]]
    unfold vR
    rw [show (3:ℝ)/3 = 1 by norm_num, Real.arctan_one]
    have hpi := Real.pi_ne_zero
    field_simp
    ring
  · simp [velocityMapCall, transformableImageCall, evalMapInPlane, evalInDiskPlane,
      isFalseId, isTrueId, List.replicate]

/-- C2: for every model and equal-shape coordinate arrays, the disk-plane
velocity evaluation (`speed=False`) returns an all-zero array of the same shape
as the input, through either backend and with any `normalized` flag. -/
theorem c2_disk_velocity_zero (model : VModel) (x y : List ℝ) (normalized : PFlag)
    (nb : Bool) (h : x.length = y.length) :
    velocityMapCall model .disk x y (.pybool false) normalized nb
      = .ok (List.replicate x.length 0) := by
  unfold velocityMapCall transformableImageCall
  rw [if_pos h]
  cases nb <;>
    simp [evalMapInPlane, evalInDiskPlane, nbEvalInDiskPlane, isFalseId,
      List.map_replicate, mul_zero]

/-- C2 witness: the theorem at the example model on the concrete arrays
`x = [1, 2]`, `y = [3, 4]`. -/
theorem c2_disk_velocity_zero_witness :
    List.length [(1:ℝ), 2] = List.length [(3:ℝ), 4] ∧
    velocityMapCall exampleModel .disk [1, 2] [3, 4] (.pybool false) (.pybool false) false
      = .ok (List.replicate 2 0) :=
  ⟨rfl, c2_disk_velocity_zero exampleModel [1, 2] [3, 4] (.pybool false) false rfl⟩

/-- C3: for every valid parameter dict, with the flattened array built once at
construction, evaluation through the flattened-array backend
(`use_numba=True`) equals evaluation through the dict backend
(`use_numba=False`) in every plane, for every speed and normalized flag (over
the reals the results are exactly equal). -/
theorem c3_backend_equivalence (pars : Pars) (plane : Plane) (x y : List ℝ)
    (speed normalized : PFlag) (_hvalid : checkModelPars pars = .ok ()) :
    velocityMapCall ⟨pars, pars2theta pars⟩ plane x y speed normalized true
      = velocityMapCall ⟨pars, pars2theta pars⟩ plane x y speed normalized false := by
  unfold velocityMapCall
  cases transformableImageCall x y with
  | error e => rfl
  | ok u => cases plane <;> rfl

/-- C3 witness: the theorem at the (valid) example parameters in the obs
plane. -/
theorem c3_backend_equivalence_witness :
    checkModelPars examplePars = .ok () ∧
    velocityMapCall ⟨examplePars, pars2theta examplePars⟩ .obs [1] [2]
        (.pybool false) (.pybool false) true
      = velocityMapCall ⟨examplePars, pars2theta examplePars⟩ .obs [1] [2]
        (.pybool false) (.pybool false) false :=
  ⟨rfl, c3_backend_equivalence examplePars .obs [1] [2] (.pybool false) (.pybool false) rfl⟩

/-- C4: for every plane, coordinates, model, speed flag and backend, evaluation
with `normalized=True` is exactly the `normalized=False` result divided
elementwise by the speed of light expressed in the model's velocity unit. -/
theorem c4_normalization (model : VModel) (plane : Plane) (x y : List ℝ)
    (speed : PFlag) (nb : Bool) :
    velocityMapCall model plane x y speed (.pybool true) nb
      = (velocityMapCall model plane x y speed (.pybool false) nb).map
          (List.map (fun v => v / cIn (getPar model.pars "v_unit"))) := by
  unfold velocityMapCall
  cases transformableImageCall x y with
  | error e => rfl
  | ok u =>
    simp only [isTrueId, if_true, if_false, Except.map, List.map_map]
    congr 1
    apply List.map_congr_left
    intro v _
    simp [Function.comp, div_eq_inv_mul]

/-- C5: parameter-set construction fails on every kind of invalid mapping the
claim lists, but the null-value case is a code bug: the `val is None` branch
formats its message as `f'{param} must be set!'` where `param` is undefined, so
it raises `NameError` instead of the intended validation error naming the
parameter.  The remaining cases behave as claimed (with the spec's abstract
error kinds realized as `TypeError` for a non-dict and for a bad unit, and
`AttributeError` for an unknown or missing name): a mapping missing `rscale`
fails on `rscale`, and one with the extra key `foo` fails on `foo`. -/
theorem c5_validation_errors :
    velocityModelInit (.dict c5ParsNull) = .error .nameError ∧
    velocityModelInit (.dict c5ParsMissing)
      = .error (.attributeError
          "rscale must be in passed parameters to instantiate centered velocity model!") ∧
    velocityModelInit (.dict c5ParsFoo)
      = .error (.attributeError
          "foo is not a valid model parameter for centered velocity model!") ∧
    velocityModelInit (.nonDict "list")
      = .error (.typeError "model_pars must be a dict, not a list!") ∧
    velocityModelInit (.dict c5ParsBadUnit)
      = .error (.typeError "unit params must be an astropy unit class!") :=
  ⟨rfl, rfl, rfl, rfl, rfl⟩

/-- C6: `build_model` lowercases the name before the registry lookup, so any
case variant of a registered name delegates to the `VelocityModel` constructor
— propagating the constructor's result (success or validation failure)
unchanged — while an unregistered name raises `ValueError`. -/
theorem c6_build_model_dispatch (name : String) (pars : PyObj) :
    (MODEL_TYPES.contains (pyLower name) = true →
      buildModel name pars = velocityModelInit pars) ∧
    (MODEL_TYPES.contains (pyLower name) = false →
      buildModel name pars
        = .error (.valueError (pyLower name ++ " is not a registered velocity model!"))) := by
  refine ⟨fun h => ?_, fun h => ?_⟩
  · show (if MODEL_TYPES.contains (pyLower name) = true then velocityModelInit pars
      else .error (.valueError (pyLower name ++ " is not a registered velocity model!")))
      = velocityModelInit pars
    rw [if_pos h]
  · show (if MODEL_TYPES.contains (pyLower name) = true then velocityModelInit pars
      else .error (.valueError (pyLower name ++ " is not a registered velocity model!")))
      = .error (.valueError (pyLower name ++ " is not a registered velocity model!"))
    rw [if_neg (fun hc => by rw [h] at hc; exact Bool.noConfusion hc)]

/-- C6 witness: the theorem at the uppercase variant `"CENTERED"` of a
registered name and at the unregistered name `"nope"`. -/
theorem c6_build_model_dispatch_witness :
    MODEL_TYPES.contains (pyLower "CENTERED") = true ∧
    buildModel "CENTERED" (.dict c5ParsNull) = velocityModelInit (.dict c5ParsNull) ∧
    MODEL_TYPES.contains (pyLower "nope") = false ∧
    buildModel "nope" (.dict c5ParsNull)
      = .error (.valueError "nope is not a registered velocity model!") :=
  ⟨by decide, (c6_build_model_dispatch "CENTERED" (.dict c5ParsNull)).1 (by decide),
   by decide, (c6_build_model_dispatch "nope" (.dict c5ParsNull)).2 (by decide)⟩

/-- C7: for every plane, model and flags, coordinate arrays of different shape
make the evaluation call fail with the shape-mismatch error before producing
any output. -/
theorem c7_shape_mismatch (model : VModel) (plane : Plane) (x y : List ℝ)
    (speed normalized : PFlag) (nb : Bool) (h : x.length ≠ y.length) :
    velocityMapCall model plane x y speed normalized nb = .error .shapeMismatch := by
  unfold velocityMapCall transformableImageCall
  rw [if_neg h]

/-- C7 witness: the theorem at the example model with `x = [1, 2]` and
`y = [3]`. -/
theorem c7_shape_mismatch_witness :
    List.length [(1:ℝ), 2] ≠ List.length [(3:ℝ)] ∧
    velocityMapCall exampleModel .gal [1, 2] [3] (.pybool false) (.pybool false) false
      = .error .shapeMismatch :=
  ⟨by decide,
   c7_shape_mismatch exampleModel .gal [1, 2] [3] (.pybool false) (.pybool false) false
     (by decide)⟩

/-- C8 counterexample: the claim as stated fails on the code.  First, the
validated parameter sets do not constrain the sign of `rscale`: `c8BadPars`
passes every construction check, has `vcirc = 1 ≥ 0`, yet its profile strictly
decreases from `r = 0` to `r = 1`.  Second, even for the example parameters
(`rscale = 3 > 0`, `vcirc = 200 ≥ 0`) the profile is not non-decreasing in
`|r|` over signed radii: `|1| ≤ |-2|` but `v_r(1) > v_r(-2)`. -/
theorem c8_counterexample :
    (checkModelPars c8BadPars = .ok () ∧ getNum c8BadPars "vcirc" = 1 ∧
      |(0:ℝ)| ≤ |(1:ℝ)| ∧ ¬ (vR 0 1 (-1) 0 ≤ vR 0 1 (-1) 1)) ∧
    (|(1:ℝ)| ≤ |(-2:ℝ)| ∧ ¬ (vR 0 200 3 1 ≤ vR 0 200 3 (-2))) := by
  refine ⟨⟨rfl, rfl, by norm_num, ?_⟩, by norm_num, ?_⟩
  · have h1 : vR 0 1 (-1) 0 = 0 := by
      unfold vR
      rw [show (0:ℝ)/(-1) = 0 by norm_num, Real.arctan_zero]
      ring
    have h2 : vR 0 1 (-1) 1 = -(1/2) := by
      unfold vR
      rw [show (1:ℝ)/(-1) = -1 by norm_num,
        show Real.arctan (-1) = -(Real.pi/4) by
          rw [show (-1:ℝ) = -(1:ℝ) by norm_num, Real.arctan_neg, Real.arctan_one]]
      have hpi := Real.pi_ne_zero
      field_simp
      ring
    rw [h1, h2]
    norm_num
  · have hpos : 0 < vR 0 200 3 1 := by
      unfold vR
      have ha : 0 < Real.arctan (1/3) := by
        rw [← Real.arctan_zero]
        exact Real.arctan_strictMono (by norm_num)
      have hc : (0:ℝ) < 2 / Real.pi * 200 := by positivity
      nlinarith
    have hneg : vR 0 200 3 (-2) < 0 := by
      unfold vR
      have ha : Real.arctan ((-2)/3) < 0 := by
        rw [← Real.arctan_zero]
        exact Real.arctan_strictMono (by norm_num)
      have hc : (0:ℝ) < 2 / Real.pi * 200 := by positivity
      nlinarith
    exact not_le.mpr (by linarith)

/-- C8 amended: for every parameter set with positive turnover radius
`rscale > 0` and `vcirc ≥ 0`, the disk-plane radial profile is non-decreasing
over the nonnegative radii at which the code evaluates it (every
`r = sqrt(x^2 + y^2)` is nonnegative), and `v_r(0) = v0`. -/
theorem c8_profile_monotone_amended (v0 vcirc rscale r1 r2 : ℝ) (hrs : 0 < rscale)
    (hvc : 0 ≤ vcirc) (_hr1 : 0 ≤ r1) (h12 : r1 ≤ r2) :
    vR v0 vcirc rscale r1 ≤ vR v0 vcirc rscale r2 ∧ vR v0 vcirc rscale 0 = v0 := by
  constructor
  · unfold vR
    have harg : r1 / rscale ≤ r2 / rscale := by gcongr
    have hmono := Real.arctan_strictMono.monotone harg
    have hcoef : (0:ℝ) ≤ 2 / Real.pi * vcirc := by positivity
    have := mul_le_mul_of_nonneg_left hmono hcoef
    linarith
  · unfold vR
    rw [zero_div, Real.arctan_zero]
    ring

/-- C8 witness: the amended theorem at `v0=0, vcirc=200, rscale=3, r1=0,
r2=1`. -/
theorem c8_profile_monotone_amended_witness :
    (0:ℝ) < 3 ∧ (0:ℝ) ≤ 200 ∧ (0:ℝ) ≤ 0 ∧ (0:ℝ) ≤ 1 ∧
    (vR 0 200 3 0 ≤ vR 0 200 3 1 ∧ vR 0 200 3 0 = 0) :=
  ⟨by norm_num, by norm_num, le_refl 0, by norm_num,
   c8_profile_monotone_amended 0 200 3 0 1 (by norm_num) (by norm_num) (le_refl 0)
     (by norm_num)⟩

/-- C9 counterexample: the claim's universal form fails — `c9BadPars` contains
a `None` value, yet construction raises the unknown-key `AttributeError` (for
the earlier entry `foo`), not `NameError`, because the dict is iterated in
insertion order. -/
theorem c9_counterexample :
    c9BadPars.any (fun p => isNoneV p.2) = true ∧
    velocityModelInit (.dict c9BadPars)
      = .error (.attributeError
          "foo is not a valid model parameter for centered velocity model!") ∧
    velocityModelInit (.dict c9BadPars) ≠ .error .nameError := by
  refine ⟨rfl, rfl, ?_⟩
  intro h
  simp [velocityModelInit, checkModelPars, checkEntries, c9BadPars, isNoneV,
    modelParams] at h

/-- C9 amended: construction from any mapping containing a `None` value fails
and never returns a model; when no earlier entry has an unknown key — in
particular whenever every key is among the nine recognized names — the raised
exception is the `NameError` coming from the null branch's message formatting
(the f-string references the undefined name `param`); and the null check runs
per entry before the unknown-key check, so a null entry raises `NameError`
even when its own key is unknown. -/
theorem c9_null_namerror_amended :
    (∀ pars : Pars, pars.any (fun p => isNoneV p.2) = true →
      ∃ e, velocityModelInit (.dict pars) = .error e) ∧
    (∀ (pre post : Pars) (k : String) (v : PyVal),
      (∀ p ∈ pre, isNoneV p.2 = false) →
      (∀ p ∈ pre, p.1 ∈ modelParams) →
      isNoneV v = true →
      velocityModelInit (.dict (pre ++ (k, v) :: post)) = .error .nameError) := by
  constructor
  · intro pars h
    obtain ⟨e, he⟩ := checkEntries_error_of_none pars h
    exact ⟨e, velocityModelInit_of_check_error pars e
      (checkModelPars_of_entries_error pars e he)⟩
  · intro pre post k v hnull hkey hv
    exact velocityModelInit_of_check_error _ _
      (checkModelPars_of_entries_error _ _
        (checkEntries_nameError_first_null pre post k v hnull hkey hv))

/-- C9 witness: the amended theorem at the dict `{'v0': 1, 'foo': None,
'bar': 7}`, whose null entry is neither first nor under a recognized key and
is followed by another unknown key, yet is the first failing entry. -/
theorem c9_null_namerror_amended_witness :
    (([("v0", PyVal.num 1), ("foo", PyVal.none), ("bar", PyVal.num 7)] : Pars).any
        (fun p => isNoneV p.2) = true ∧
      ∃ e, velocityModelInit
          (.dict [("v0", PyVal.num 1), ("foo", PyVal.none), ("bar", PyVal.num 7)])
        = .error e) ∧
    ((∀ p ∈ ([("v0", PyVal.num 1)] : Pars), isNoneV p.2 = false) ∧
     (∀ p ∈ ([("v0", PyVal.num 1)] : Pars), p.1 ∈ modelParams) ∧
     isNoneV PyVal.none = true ∧
     velocityModelInit
         (.dict ([("v0", PyVal.num 1)] ++ ("foo", PyVal.none) :: [("bar", PyVal.num 7)]))
       = .error .nameError) :=
  ⟨⟨rfl, c9_null_namerror_amended.1
      [("v0", PyVal.num 1), ("foo", PyVal.none), ("bar", PyVal.num 7)] rfl⟩,
   fun p hp => by rw [List.mem_singleton.mp hp]; rfl,
   fun p hp => by rw [List.mem_singleton.mp hp]; decide,
   rfl,
   c9_null_namerror_amended.2 [("v0", PyVal.num 1)] [("bar", PyVal.num 7)] "foo" PyVal.none
     (fun p hp => by rw [List.mem_singleton.mp hp]; rfl)
     (fun p hp => by rw [List.mem_singleton.mp hp]; decide) rfl⟩

/-- C10: the evaluation flags are tested by object identity, not truthiness:
the disk-plane zero map is returned only when `speed` is the bool `False`, so
the integer `0` selects the radial speed profile (the same result as
`speed=True`); and division by `c` happens only when `normalized` is the bool
`True`, so the integer `1` yields the unnormalized field (the same result as
`normalized=False`). -/
theorem c10_identity_flag_checks :
    (∀ (pars : Pars) (x y : List ℝ),
      evalInDiskPlane pars x y (.pyint 0) = evalInDiskPlane pars x y (.pybool true)) ∧
    (∀ (model : VModel) (plane : Plane) (x y : List ℝ) (speed : PFlag) (nb : Bool),
      velocityMapCall model plane x y speed (.pyint 1) nb
        = velocityMapCall model plane x y speed (.pybool false) nb) :=
  ⟨fun _ _ _ => rfl, fun _ _ _ _ _ _ => rfl⟩
